import Mathlib

/-!
Shallow embedding of the plenzo deal-finder repository.

Files embedded:
- `src/plenzo_nogui.py` : `plenzo_search` — a Selenium scraper that loads a
  search page, takes the first 3 `resultRow` containers, and extracts per-row
  image / title / link data, skipping any row whose element lookups fail.
- `src/app.py` : `api_search` — the Flask route `GET /api/search?q=...`.
- `src/__main__.py` : `fetchWithBackoff` — a JavaScript fetch wrapper that
  retries on HTTP 429 or network error with delays of `2^(3-retries)` seconds.
-/

namespace Plenzo

/-! ## Data model of the rendered page

The scraper's element lookups (`find_element`) either succeed or raise; an
`Option` field models presence of the looked-up sub-element. `get_attribute`
returns the attribute value, or Python `None` when the attribute is absent
(modelled as `Option String`; a present-but-empty attribute is `some ""`).
-/

/-- An `<img>` element inside the `dealImg` container: its `data-original`
(lazy-load) attribute and its `src` attribute, each possibly absent. -/
structure ImgElem where
  dataOriginal : Option String
  src : Option String
deriving DecidableEq, Repr

/-- An `<a>` element inside the `dealWrapper` container: its visible text
(Selenium `.text`) and its `href` attribute as the resolved absolute URL
(Selenium resolves relative URLs; absent attribute gives `None`). -/
structure Anchor where
  text : String
  href : Option String
deriving DecidableEq, Repr

/-- The `dealImg` sub-container of a result row; `img` is the `<img>` tag
found inside it by `find_element(By.TAG_NAME, "img")`, absent when that
lookup raises. -/
structure DealImgDiv where
  img : Option ImgElem
deriving DecidableEq, Repr

/-- The `dealWrapper` sub-container of a result row; `anchors` lists its
`<a>` tags in document order. `find_element(By.TAG_NAME, "a")` returns the
first one and raises when the list is empty. -/
structure DealWrapperDiv where
  anchors : List Anchor
deriving DecidableEq, Repr

/-- One `resultRow` container. `dealImg` / `dealWrapper` are `none` when the
corresponding `find_element(By.CLASS_NAME, ...)` lookup raises. -/
structure ResultRow where
  dealImg : Option DealImgDiv
  dealWrapper : Option DealWrapperDiv
deriving DecidableEq, Repr

/-- The deal object compiled per extracted row in `plenzo_search`
(`src/plenzo_nogui.py` lines 75-80). -/
structure Deal where
  rank : Nat
  title : String
  link : Option String
  imageUrl : Option String
deriving DecidableEq, Repr

/-- Python truthiness of a `str`-or-`None` value: `None` and the empty string
are falsy. Used to embed `if not image_url:` on line 60 of
`src/plenzo_nogui.py`. -/
def pyTruthy : Option String → Bool
  | none => false
  | some s => !s.isEmpty

/-- Python `str.strip()`: remove leading and trailing whitespace characters.
Embedded directly over the character list so that it evaluates by kernel
reduction. -/
def pyStrip (s : String) : String :=
  ⟨((s.data.dropWhile Char.isWhitespace).reverse.dropWhile Char.isWhitespace).reverse⟩

/-- The body of the per-row `try` block of `plenzo_search`
(`src/plenzo_nogui.py` lines 52-81): look up `dealImg` then its `img` tag,
read `data-original` falling back to `src` when that value is falsy, look up
`dealWrapper` then its first `<a>`, and build the deal object with
`rank = index + 1`. Any failing lookup raises, caught by the `except` on
line 83, so the row yields `none`. -/
def extractRow (index : Nat) (row : ResultRow) : Option Deal :=
  match row.dealImg with
  | none => none
  | some imgContainer =>
    match imgContainer.img with
    | none => none
    | some imgElement =>
      let lazyUrl := imgElement.dataOriginal
      let imageUrl := if pyTruthy lazyUrl then lazyUrl else imgElement.src
      match row.dealWrapper with
      | none => none
      | some wrapper =>
        match wrapper.anchors with
        | [] => none
        | linkElement :: _ =>
          some { rank := index + 1, title := pyStrip linkElement.text,
                 link := linkElement.href, imageUrl := imageUrl }

/-- The `for index, row in enumerate(deal_rows)` loop of `plenzo_search`
(`src/plenzo_nogui.py` lines 51-87): rows whose extraction raises are skipped
(`continue`), successful rows are appended in order. -/
def extractLoop : Nat → List ResultRow → List Deal
  | _, [] => []
  | index, row :: rest =>
    match extractRow index row with
    | some d => d :: extractLoop (index + 1) rest
    | none => extractLoop (index + 1) rest

/-- Outcome of `driver.get(base_url)` plus the wait: either some failure
raised during navigation (network error, driver error), or the page rendered
with a list of `resultRow` containers in document order. -/
inductive PageLoad where
  | failure
  | ok (rows : List ResultRow)
deriving DecidableEq, Repr

/-- The outer `try` block of `plenzo_search` (`src/plenzo_nogui.py` lines
40-87): navigation failure raises; `wait.until(presence_of_element_located
(resultRow))` raises a timeout when no `resultRow` is present; otherwise
`find_elements` returns the rows, the first three are taken (`[:3]`, line 49)
and the extraction loop runs. -/
def scrapeBody : PageLoad → Except String (List Deal)
  | .failure => .error "navigation failed"
  | .ok rows =>
    if rows.isEmpty then .error "timeout waiting for resultRow"
    else .ok (extractLoop 0 (rows.take 3))

/-- Browser-session lifecycle events of `plenzo_search`: `created` for
`webdriver.Chrome(...)` on line 37, `quit` for `driver.quit()` on line 93. -/
inductive SessionEvent where
  | created
  | quit
deriving DecidableEq, Repr

/-- `plenzo_search` with its session lifecycle made explicit
(`src/plenzo_nogui.py` lines 37-95): the driver is created, `results`
starts empty, the `try` body runs; the `except Exception` clause (line 89)
catches any failure leaving `results` as accumulated so far (a failure can
only occur before the loop appends anything, so `results` is `[]` there);
the `finally` clause (lines 91-93) quits the driver on every path; then
`results` is returned. Returns the emitted event trace and the result. -/
def plenzo_search_run (page : PageLoad) : List SessionEvent × List Deal :=
  let opening := [SessionEvent.created]
  let results :=
    match scrapeBody page with
    | .ok rs => rs
    | .error _ => []
  (opening ++ [SessionEvent.quit], results)

/-- The value returned by `plenzo_search` (`src/plenzo_nogui.py` line 95). -/
def plenzo_search (page : PageLoad) : List Deal :=
  (plenzo_search_run page).2

/-! ## The Flask route (`src/app.py`) -/

/-- JSON body of an `/api/search` response: either an error object or the
`{"query": ..., "results": [...]}` success object. -/
inductive ApiBody where
  | errorBody (msg : String)
  | resultsBody (query : String) (results : List Deal)
deriving DecidableEq, Repr

/-- An HTTP response: status code and JSON body. -/
structure HttpResponse where
  status : Nat
  body : ApiBody
deriving DecidableEq, Repr

/-- Outcome of calling `plenzo_search(query)` from the route: a value, or an
exception propagating out. -/
inductive ScraperOutcome where
  | ok (deals : List Deal)
  | exn (msg : String)
deriving DecidableEq, Repr

/-- The `api_search` route (`src/app.py` lines 14-39): `q` is read with
default `""` (so a missing parameter behaves as empty) and stripped; a falsy
(empty) stripped query returns 400 with the documented error body before the
scraper is touched; otherwise the scraper is invoked, a normal return gives
200 with `{query, results}` and an exception gives 500. The boolean records
whether the scraper was invoked. -/
def api_search (qParam : Option String) (scraper : String → ScraperOutcome) :
    HttpResponse × Bool :=
  let query := pyStrip (qParam.getD "")
  if query.isEmpty then
    ({ status := 400, body := .errorBody "Missing 'q' query parameter" }, false)
  else
    match scraper query with
    | .ok deals => ({ status := 200, body := .resultsBody query deals }, true)
    | .exn _ => ({ status := 500, body := .errorBody "Search failed on the server." }, true)

/-! ## The backoff fetcher (`src/__main__.py`, JavaScript) -/

/-- Outcome of one `fetch(url, options)` call: a response carrying a status
code, or a rejected promise (network-level failure). -/
inductive FetchOutcome where
  | response (status : Nat)
  | networkError (msg : String)
deriving DecidableEq, Repr

/-- Result of `fetchWithBackoff`: a returned response, or a thrown error. -/
inductive FetchResult where
  | response (status : Nat)
  | thrown (msg : String)
deriving DecidableEq, Repr

/-- The delay `Math.pow(2, 3 - retries) * 1000` in milliseconds
(`src/__main__.py` lines 17 and 25); the subtraction is over the integers
(JavaScript numbers), so the value is rational when `retries > 3`. -/
def delayMs (retries : Nat) : ℚ := (2 : ℚ) ^ ((3 : ℤ) - (retries : ℤ)) * 1000

/-- One run of `fetchWithBackoff`: the final result, the sequence of
`setTimeout` delays awaited (in order, milliseconds), and how many `fetch`
calls were made. -/
structure BackoffRun where
  result : FetchResult
  delays : List ℚ
  fetchCalls : Nat
deriving DecidableEq, Repr

/-- `fetchWithBackoff(url, options, retries)` (`src/__main__.py` lines
13-32). The `oracle` gives the outcome of the `fetch` call on each attempt
(attempt numbers increase by one per recursive call). A 429 response with
`retries > 0` waits `delayMs retries` and recurses with `retries - 1`; any
other response is returned as-is. A network error with `retries > 0` waits
and recurses identically; with no retries left it is rethrown. -/
def fetchWithBackoff (oracle : Nat → FetchOutcome) : Nat → Nat → BackoffRun
  | attempt, 0 =>
    match oracle attempt with
    | .response s => { result := .response s, delays := [], fetchCalls := 1 }
    | .networkError m => { result := .thrown m, delays := [], fetchCalls := 1 }
  | attempt, r + 1 =>
    match oracle attempt with
    | .response s =>
      if s == 429 then
        let rest := fetchWithBackoff oracle (attempt + 1) r
        { result := rest.result, delays := delayMs (r + 1) :: rest.delays,
          fetchCalls := rest.fetchCalls + 1 }
      else { result := .response s, delays := [], fetchCalls := 1 }
    | .networkError _ =>
      let rest := fetchWithBackoff oracle (attempt + 1) r
      { result := rest.result, delays := delayMs (r + 1) :: rest.delays,
        fetchCalls := rest.fetchCalls + 1 }

/-- `fetchWithBackoff` at its default argument `retries = 3`
(`src/__main__.py` line 13), starting from attempt 0. -/
def fetchWithBackoffDefault (oracle : Nat → FetchOutcome) : BackoffRun :=
  fetchWithBackoff oracle 0 3

/-- A row in which some element lookup raises: the `dealImg` container is
missing, its `img` tag is missing, the `dealWrapper` container is missing,
or the wrapper holds no anchor. -/
def rowLookupFails (r : ResultRow) : Bool :=
  match r.dealImg with
  | none => true
  | some c =>
    match c.img with
    | none => true
    | some _ =>
      match r.dealWrapper with
      | none => true
      | some w => w.anchors.isEmpty

/-! ## Concrete page fixtures used by counterexamples and witnesses -/

/-- A fully well-formed result row (first document position). -/
def c1rowGood1 : ResultRow :=
  { dealImg := some { img := some { dataOriginal := some "https://img/1.jpg",
                                    src := some "https://img/1-src.jpg" } },
    dealWrapper := some { anchors := [{ text := " Deal One ",
                                        href := some "https://deal/1" }] } }

/-- A malformed result row (second document position): its `dealImg` lookup
raises. -/
def c1rowBad2 : ResultRow :=
  { dealImg := none,
    dealWrapper := some { anchors := [{ text := "Deal Two",
                                        href := some "https://deal/2" }] } }

/-- A fully well-formed result row (third document position). -/
def c1rowGood3 : ResultRow :=
  { dealImg := some { img := some { dataOriginal := some "https://img/3.jpg",
                                    src := none } },
    dealWrapper := some { anchors := [{ text := "Deal Three",
                                        href := some "https://deal/3" }] } }

/-- A rendered page whose middle row is malformed. -/
def c1page : PageLoad := .ok [c1rowGood1, c1rowBad2, c1rowGood3]

/-- The deal extracted from `c1rowGood1` at index 0. -/
def c1dealOne : Deal :=
  { rank := 1, title := "Deal One", link := some "https://deal/1",
    imageUrl := some "https://img/1.jpg" }

/-! ## Helper lemmas about the extraction loop -/

/-- A successfully extracted deal records `index + 1` as its rank. -/
theorem extractRow_rank {i : Nat} {r : ResultRow} {d : Deal}
    (h : extractRow i r = some d) : d.rank = i + 1 := by
  unfold extractRow at h
  repeat' split at h
  all_goals simp_all
  all_goals simp [← h]

/-- Characterization of successful row extraction. -/
theorem extractRow_eq_some_iff {i : Nat} {r : ResultRow} {d : Deal} :
    extractRow i r = some d ↔
    ∃ ie a rest, r.dealImg = some { img := some ie } ∧
      r.dealWrapper = some { anchors := a :: rest } ∧
      d = { rank := i + 1, title := pyStrip a.text, link := a.href,
            imageUrl := if pyTruthy ie.dataOriginal then ie.dataOriginal
                        else ie.src } := by
  rcases r with ⟨di, dw⟩
  cases di with
  | none => simp [extractRow]
  | some c =>
    rcases c with ⟨img⟩
    cases img with
    | none => simp [extractRow]
    | some ie =>
      cases dw with
      | none => simp [extractRow]
      | some w =>
        rcases w with ⟨anchors⟩
        cases anchors with
        | nil => simp [extractRow]
        | cons a rest =>
          simp [extractRow]
          exact eq_comm

/-- A row whose lookup fails yields no deal at any index. -/
theorem extractRow_of_lookupFails {r : ResultRow}
    (h : rowLookupFails r = true) (i : Nat) : extractRow i r = none := by
  unfold rowLookupFails at h
  unfold extractRow
  repeat' split
  all_goals simp_all [List.isEmpty_iff]

/-- The extraction loop emits at most one deal per input row. -/
theorem extractLoop_length_le (l : List ResultRow) :
    ∀ k, (extractLoop k l).length ≤ l.length := by
  induction l with
  | nil => intro k; simp [extractLoop]
  | cons r rest ih =>
    intro k
    simp only [extractLoop, List.length_cons]
    cases hr : extractRow k r with
    | none => exact Nat.le_succ_of_le (ih (k + 1))
    | some d => simpa using Nat.succ_le_succ (ih (k + 1))

/-- The extraction loop distributes over appending, shifting the index. -/
theorem extractLoop_append (l₁ : List ResultRow) :
    ∀ (k : Nat) (l₂ : List ResultRow),
    extractLoop k (l₁ ++ l₂) = extractLoop k l₁ ++ extractLoop (k + l₁.length) l₂ := by
  induction l₁ with
  | nil => intro k l₂; simp [extractLoop]
  | cons r rest ih =>
    intro k l₂
    simp only [List.cons_append, extractLoop, List.length_cons]
    have hlen : k + (rest.length + 1) = (k + 1) + rest.length := by omega
    rw [hlen]
    cases hr : extractRow k r <;> simp [ih (k + 1)]

/-- The ranks emitted by the extraction loop started at index `k` form a
sublist of `k+1, k+2, ...`: strictly increasing, one slot per input row. -/
theorem extractLoop_rank_sublist (l : List ResultRow) :
    ∀ k, List.Sublist ((extractLoop k l).map Deal.rank) (List.range' (k + 1) l.length) := by
  induction l with
  | nil => intro k; simp [extractLoop]
  | cons r rest ih =>
    intro k
    rw [List.length_cons, List.range'_succ]
    simp only [extractLoop]
    cases hr : extractRow k r with
    | none => exact (ih (k + 1)).cons _
    | some d =>
      rw [List.map_cons, extractRow_rank hr]
      exact (ih (k + 1)).cons₂ _

/-- On a page that failed to load, `plenzo_search` returns the empty list. -/
theorem plenzo_search_failure : plenzo_search .failure = [] := rfl

/-- On a rendered page, `plenzo_search` runs the extraction loop on the
first three rows (when no row is present the timeout path also gives the
empty list, which coincides with the loop on the empty list). -/
theorem plenzo_search_ok (rows : List ResultRow) :
    plenzo_search (.ok rows) = extractLoop 0 (rows.take 3) := by
  by_cases h : rows.isEmpty
  · rw [List.isEmpty_iff.mp h]; rfl
  · simp [plenzo_search, plenzo_search_run, scrapeBody, h]

/-! ## Claims -/

/-- C1, as stated, is false of the code: rank is `index + 1` for the row's
original index among the first three containers, not a densely reassigned
position. On a page whose three rows are good, bad, good, the output ranks
are `[1, 3]`, so the second output deal has rank 3, not 2. -/
theorem c1_rank_dense_counterexample :
    (plenzo_search c1page).map Deal.rank = [1, 3] ∧
    (plenzo_search c1page).map Deal.rank ≠
      List.range' 1 (plenzo_search c1page).length := by
  exact ⟨by decide, by decide⟩

/-- C1 (amended): each extracted deal's rank is `index + 1` for the original
document position of its source row among the first three containers, so the
rank sequence of a page's output is a strictly increasing sublist of
`[1, 2, 3]` — gaps appear exactly where rows were skipped — rather than a
dense sequence `1..k`. -/
theorem c1_rank_is_row_position (page : PageLoad) (i : Nat) (r : ResultRow)
    (d : Deal) (h : extractRow i r = some d) :
    d.rank = i + 1 ∧ List.Sublist ((plenzo_search page).map Deal.rank) [1, 2, 3] := by
  refine ⟨extractRow_rank h, ?_⟩
  cases page with
  | failure => simp [plenzo_search_failure]
  | ok rows =>
    rw [plenzo_search_ok]
    refine (extractLoop_rank_sublist (rows.take 3) 0).trans ?_
    have hlen : (rows.take 3).length ≤ 3 := by simp
    have hsub : List.Sublist (List.range' (0 + 1) (rows.take 3).length) (List.range' (0 + 1) 3) :=
      List.range'_sublist_right.mpr hlen
    have h3 : List.range' (0 + 1) 3 = [1, 2, 3] := rfl
    rwa [h3] at hsub

/-- Witness for C1 (amended) on the concrete mixed page. -/
theorem c1_rank_is_row_position_witness :
    c1dealOne.rank = 0 + 1 ∧ List.Sublist ((plenzo_search c1page).map Deal.rank) [1, 2, 3] :=
  c1_rank_is_row_position c1page 0 c1rowGood1 c1dealOne (by decide)

/-- C2: `plenzo_search` returns at most 3 deals on every page, and only the
first three result containers in document order are ever considered. -/
theorem c2_results_capped_at_three :
    (∀ page : PageLoad, (plenzo_search page).length ≤ 3) ∧
    (∀ rows : List ResultRow,
      plenzo_search (.ok rows) = plenzo_search (.ok (rows.take 3))) := by
  constructor
  · intro page
    cases page with
    | failure => simp [plenzo_search_failure]
    | ok rows =>
      rw [plenzo_search_ok]
      calc (extractLoop 0 (rows.take 3)).length
          ≤ (rows.take 3).length := extractLoop_length_le _ 0
        _ ≤ 3 := by simp
  · intro rows
    rw [plenzo_search_ok, plenzo_search_ok]
    simp [List.take_take]

/-- C3: a row in which any lookup fails contributes no entry at any position
— never a partial or null-image entry — and the loop continues with the
subsequent containers, which are extracted exactly as they would be on
their own (at their original indices). -/
theorem c3_failed_row_dropped (k : Nat) (pre post : List ResultRow)
    (r : ResultRow) (h : rowLookupFails r = true) :
    (∀ i, extractRow i r = none) ∧
    extractLoop k (pre ++ r :: post) =
      extractLoop k pre ++ extractLoop (k + pre.length + 1) post := by
  refine ⟨extractRow_of_lookupFails h, ?_⟩
  rw [extractLoop_append]
  simp only [extractLoop, extractRow_of_lookupFails h]

/-- Witness for C3: dropping the malformed middle row of the concrete page. -/
theorem c3_failed_row_dropped_witness :
    extractLoop 0 ([c1rowGood1] ++ c1rowBad2 :: [c1rowGood3]) =
      extractLoop 0 [c1rowGood1] ++ extractLoop 2 [c1rowGood3] :=
  (c3_failed_row_dropped 0 [c1rowGood1] [c1rowGood3] c1rowBad2 (by decide)).2

/-! ## Helper lemmas about the backoff fetcher -/

/-- An attempt outcome that triggers the retry branch when retries remain:
a 429 response or a network-level failure. -/
def retryable : FetchOutcome → Bool
  | .response s => s == 429
  | .networkError _ => true

/-- Equation lemma: a call with no retries left. -/
theorem fetchWithBackoff_zero (oracle : Nat → FetchOutcome) (a : Nat) :
    fetchWithBackoff oracle a 0 =
      match oracle a with
      | .response s => { result := .response s, delays := [], fetchCalls := 1 }
      | .networkError m => { result := .thrown m, delays := [], fetchCalls := 1 } :=
  rfl

/-- Equation lemma: a call with retries remaining. -/
theorem fetchWithBackoff_succ (oracle : Nat → FetchOutcome) (a r : Nat) :
    fetchWithBackoff oracle a (r + 1) =
      match oracle a with
      | .response s =>
        if s == 429 then
          { result := (fetchWithBackoff oracle (a + 1) r).result,
            delays := delayMs (r + 1) :: (fetchWithBackoff oracle (a + 1) r).delays,
            fetchCalls := (fetchWithBackoff oracle (a + 1) r).fetchCalls + 1 }
        else { result := .response s, delays := [], fetchCalls := 1 }
      | .networkError _ =>
        { result := (fetchWithBackoff oracle (a + 1) r).result,
          delays := delayMs (r + 1) :: (fetchWithBackoff oracle (a + 1) r).delays,
          fetchCalls := (fetchWithBackoff oracle (a + 1) r).fetchCalls + 1 } :=
  rfl

/-- With retries remaining, a retryable outcome waits the computed delay and
recurses with one fewer retry. -/
theorem fetchWithBackoff_retry_step (oracle : Nat → FetchOutcome) (a r : Nat)
    (h : retryable (oracle a) = true) :
    fetchWithBackoff oracle a (r + 1) =
      { result := (fetchWithBackoff oracle (a + 1) r).result,
        delays := delayMs (r + 1) :: (fetchWithBackoff oracle (a + 1) r).delays,
        fetchCalls := (fetchWithBackoff oracle (a + 1) r).fetchCalls + 1 } := by
  rw [fetchWithBackoff_succ]
  cases ho : oracle a with
  | response s =>
    rw [ho] at h
    simp only [retryable] at h
    simp [h]
  | networkError m => simp

/-- A non-429 response stops the recursion at once, whatever `retries` is. -/
theorem fetchWithBackoff_stop (oracle : Nat → FetchOutcome) (a r s : Nat)
    (ho : oracle a = .response s) (hs : (s == 429) = false) :
    fetchWithBackoff oracle a r =
      { result := .response s, delays := [], fetchCalls := 1 } := by
  cases r with
  | zero => rw [fetchWithBackoff_zero, ho]
  | succ r => rw [fetchWithBackoff_succ, ho]; simp [hs]

/-- A non-retryable outcome is a non-429 response. -/
theorem retryable_eq_false_iff (o : FetchOutcome) :
    retryable o = false ↔ ∃ s, o = .response s ∧ (s == 429) = false := by
  cases o <;> simp [retryable]

/-- A call with no retries left makes one fetch and never sleeps. -/
theorem fetchWithBackoff_zero_run (oracle : Nat → FetchOutcome) (a : Nat) :
    (fetchWithBackoff oracle a 0).delays = [] ∧
    (fetchWithBackoff oracle a 0).fetchCalls = 1 := by
  rw [fetchWithBackoff_zero]
  cases oracle a <;> simp

/-- C4: with the default `retries = 3`, every run sleeps 1000ms before the
first retry, 2000ms before the second, 4000ms before the third — the delay
list is always one of `[]`, `[1000]`, `[1000, 2000]`, `[1000, 2000, 4000]`
(milliseconds, matching the fetch-call count) — and at most 4 fetches are
ever made, i.e. no 4th retry; when the first three attempts are all
retryable, all three delays occur, in that order. -/
theorem c4_default_backoff_schedule (oracle : Nat → FetchOutcome) :
    (fetchWithBackoffDefault oracle).fetchCalls ≤ 4 ∧
    (((fetchWithBackoffDefault oracle).delays = [] ∧
        (fetchWithBackoffDefault oracle).fetchCalls = 1) ∨
     ((fetchWithBackoffDefault oracle).delays = [1000] ∧
        (fetchWithBackoffDefault oracle).fetchCalls = 2) ∨
     ((fetchWithBackoffDefault oracle).delays = [1000, 2000] ∧
        (fetchWithBackoffDefault oracle).fetchCalls = 3) ∨
     ((fetchWithBackoffDefault oracle).delays = [1000, 2000, 4000] ∧
        (fetchWithBackoffDefault oracle).fetchCalls = 4)) ∧
    ((∀ i, i < 3 → retryable (oracle i) = true) →
      (fetchWithBackoffDefault oracle).delays = [1000, 2000, 4000] ∧
      (fetchWithBackoffDefault oracle).fetchCalls = 4) := by
  have d3 : delayMs 3 = 1000 := by norm_num [delayMs]
  have d2 : delayMs 2 = 2000 := by norm_num [delayMs]
  have d1 : delayMs 1 = 4000 := by norm_num [delayMs]
  have hz := fetchWithBackoff_zero_run oracle 3
  unfold fetchWithBackoffDefault
  by_cases h0 : retryable (oracle 0) = true
  · rw [fetchWithBackoff_retry_step oracle 0 2 h0]
    by_cases h1 : retryable (oracle 1) = true
    · rw [fetchWithBackoff_retry_step oracle 1 1 h1]
      by_cases h2 : retryable (oracle 2) = true
      · rw [fetchWithBackoff_retry_step oracle 2 0 h2]
        refine ⟨by simp [hz.2], ?_, ?_⟩
        · right; right; right
          simp [hz.1, hz.2, d3, d2, d1]
        · intro _
          simp [hz.1, hz.2, d3, d2, d1]
      · obtain ⟨s2, ho2, hs2⟩ :=
          (retryable_eq_false_iff (oracle 2)).mp (by simpa using h2)
        rw [fetchWithBackoff_stop oracle 2 1 s2 ho2 hs2]
        refine ⟨by simp, ?_, ?_⟩
        · right; right; left
          simp [d3, d2]
        · intro hall
          exact absurd (hall 2 (by omega)) h2
    · obtain ⟨s1, ho1, hs1⟩ :=
        (retryable_eq_false_iff (oracle 1)).mp (by simpa using h1)
      rw [fetchWithBackoff_stop oracle 1 2 s1 ho1 hs1]
      refine ⟨by simp, ?_, ?_⟩
      · right; left
        simp [d3]
      · intro hall
        exact absurd (hall 1 (by omega)) h1
  · obtain ⟨s0, ho0, hs0⟩ :=
      (retryable_eq_false_iff (oracle 0)).mp (by simpa using h0)
    rw [fetchWithBackoff_stop oracle 0 3 s0 ho0 hs0]
    refine ⟨by simp, ?_, ?_⟩
    · left; simp
    · intro hall
      exact absurd (hall 0 (by omega)) h0

/-- Witness for C4: every attempt answers 429, so the run sleeps exactly
1000ms, 2000ms, 4000ms and makes 4 fetches. -/
theorem c4_default_backoff_schedule_witness :
    (fetchWithBackoffDefault (fun _ => FetchOutcome.response 429)).delays =
      [1000, 2000, 4000] ∧
    (fetchWithBackoffDefault (fun _ => FetchOutcome.response 429)).fetchCalls = 4 :=
  (c4_default_backoff_schedule (fun _ => FetchOutcome.response 429)).2.2
    (fun i _ => by simp [retryable])

/-- C5: with no retries remaining, a response — in particular a 429 — is
returned as-is with no further delay, and a network-level failure is
rethrown to the caller. -/
theorem c5_exhausted_retries (oracle : Nat → FetchOutcome) (a : Nat) :
    (∀ s, oracle a = .response s →
      fetchWithBackoff oracle a 0 =
        { result := .response s, delays := [], fetchCalls := 1 }) ∧
    (∀ m, oracle a = .networkError m →
      fetchWithBackoff oracle a 0 =
        { result := .thrown m, delays := [], fetchCalls := 1 }) := by
  constructor
  · intro s hs
    rw [fetchWithBackoff_zero, hs]
  · intro m hm
    rw [fetchWithBackoff_zero, hm]

/-- Witness for C5: an exhausted run returns the last 429 response as-is,
and rethrows a last network failure. -/
theorem c5_exhausted_retries_witness :
    fetchWithBackoff (fun _ => FetchOutcome.response 429) 3 0 =
      { result := .response 429, delays := [], fetchCalls := 1 } ∧
    fetchWithBackoff (fun _ => FetchOutcome.networkError "conn reset") 3 0 =
      { result := .thrown "conn reset", delays := [], fetchCalls := 1 } :=
  ⟨(c5_exhausted_retries (fun _ => FetchOutcome.response 429) 3).1 429 rfl,
   (c5_exhausted_retries (fun _ => FetchOutcome.networkError "conn reset") 3).2
     "conn reset" rfl⟩

/-- C10: any response other than 429 — e.g. a 500 — is returned to the
caller immediately: no delay is slept, no retry happens, however many
retries remain. -/
theorem c10_non429_returned_immediately (oracle : Nat → FetchOutcome)
    (a r s : Nat) (ho : oracle a = .response s) (hs : (s == 429) = false) :
    fetchWithBackoff oracle a r =
      { result := .response s, delays := [], fetchCalls := 1 } :=
  fetchWithBackoff_stop oracle a r s ho hs

/-- Witness for C10: a 500 response with all 3 retries remaining is returned
at once. -/
theorem c10_non429_returned_immediately_witness :
    fetchWithBackoff (fun _ => FetchOutcome.response 500) 0 3 =
      { result := .response 500, delays := [], fetchCalls := 1 } :=
  c10_non429_returned_immediately (fun _ => FetchOutcome.response 500) 0 3 500
    rfl (by decide)

/-- C9: on every execution of `plenzo_search` that reaches session creation
the session event trace is exactly create-then-quit — the quit is the final
event on the success path and the caught-failure path alike, so no path
leaves the session open. -/
theorem c9_session_teardown (page : PageLoad) :
    (plenzo_search_run page).1 = [SessionEvent.created, SessionEvent.quit] ∧
    (plenzo_search_run page).1.getLast? = some SessionEvent.quit :=
  ⟨rfl, rfl⟩

/-- C6: a missing, empty, or whitespace-only `q` makes `api_search` answer
400 with exactly the documented error body, without invoking the scraper. -/
theorem c6_blank_query_400 (qParam : Option String)
    (scraper : String → ScraperOutcome)
    (h : (pyStrip (qParam.getD "")).isEmpty = true) :
    api_search qParam scraper =
      ({ status := 400, body := .errorBody "Missing 'q' query parameter" },
       false) := by
  simp [api_search, h]

/-- Witness for C6 on a whitespace-only parameter. -/
theorem c6_blank_query_400_witness :
    api_search (some "   ") (fun _ => ScraperOutcome.ok []) =
      ({ status := 400, body := .errorBody "Missing 'q' query parameter" },
       false) :=
  c6_blank_query_400 (some "   ") (fun _ => ScraperOutcome.ok []) (by decide)

/-- C7: a navigation/wait failure or a page with no result rows is caught
inside `plenzo_search`, which returns the empty list instead of raising;
the route then answers 200 with the query and an empty results list, not an
error response. -/
theorem c7_failures_yield_empty_200 (q : String) (page : PageLoad)
    (hq : (pyStrip q).isEmpty = false)
    (hpage : page = PageLoad.failure ∨ page = PageLoad.ok []) :
    plenzo_search page = [] ∧
    api_search (some q) (fun _ => ScraperOutcome.ok (plenzo_search page)) =
      ({ status := 200, body := .resultsBody (pyStrip q) [] }, true) := by
  have hempty : plenzo_search page = [] := by
    rcases hpage with h | h <;> subst h <;> rfl
  refine ⟨hempty, ?_⟩
  simp [api_search, hq, hempty]

/-- Witness for C7: a timed-out page load for the query "laptop". -/
theorem c7_failures_yield_empty_200_witness :
    plenzo_search PageLoad.failure = [] ∧
    api_search (some "laptop")
        (fun _ => ScraperOutcome.ok (plenzo_search PageLoad.failure)) =
      ({ status := 200, body := .resultsBody (pyStrip "laptop") [] }, true) :=
  c7_failures_yield_empty_200 "laptop" PageLoad.failure (by decide) (Or.inl rfl)

/-! ## Image attribute selection (C8) -/

/-- `pyTruthy` holds exactly of a present, non-empty string. -/
theorem pyTruthy_eq_true_iff (o : Option String) :
    pyTruthy o = true ↔ ∃ s, o = some s ∧ s ≠ "" := by
  cases o with
  | none => simp [pyTruthy]
  | some s =>
    by_cases hs : s = ""
    · subst hs
      constructor
      · intro h
        exact absurd h (by decide)
      · rintro ⟨s', hs', hne⟩
        injection hs' with h
        subst h
        exact absurd rfl hne
    · have hie : s.isEmpty = false :=
        Bool.eq_false_iff.mpr (fun h => hs ((String.isEmpty_iff s).mp h))
      simp [pyTruthy, hie, hs]

/-- `pyTruthy` fails exactly of an absent or empty string. -/
theorem pyTruthy_eq_false_iff (o : Option String) :
    pyTruthy o = false ↔ o = none ∨ o = some "" := by
  cases o with
  | none => simp [pyTruthy]
  | some s =>
    by_cases hs : s = ""
    · subst hs; decide
    · have hie : s.isEmpty = false :=
        Bool.eq_false_iff.mpr (fun h => hs ((String.isEmpty_iff s).mp h))
      simp [pyTruthy, hie, hs]

/-- A row whose image carries a present-but-empty lazy-load attribute
alongside a non-empty direct source attribute. -/
def c8row : ResultRow :=
  { dealImg := some { img := some { dataOriginal := some "",
                                    src := some "https://img/direct.png" } },
    dealWrapper := some { anchors := [{ text := " Gadget ",
                                        href := some "https://deal/g" }] } }

/-- The deal extracted from `c8row` at index 0. -/
def c8deal : Deal :=
  { rank := 1, title := "Gadget", link := some "https://deal/g",
    imageUrl := some "https://img/direct.png" }

/-- C8, as stated, is false of the code: on a row whose lazy-load attribute
is present but empty (`data-original=""`), the code uses the `src`
attribute, although the claim allows `src` only when the lazy-load
attribute is absent. The extracted deal's imageUrl is the src value, not
the present lazy-load value `""`. -/
theorem c8_lazyload_counterexample :
    extractRow 0 c8row = some c8deal ∧
    c8row.dealImg = some { img := some { dataOriginal := some "",
                                         src := some "https://img/direct.png" } } ∧
    c8deal.imageUrl ≠ some "" :=
  ⟨by decide, rfl, by decide⟩

/-- C8 (amended): for every successfully extracted row, imageUrl is the
lazy-load attribute's value when that attribute is present AND non-empty;
when it is absent OR present-but-empty, the direct source attribute's value
is used instead (Python falsiness, not mere absence, selects the fallback).
The title is the first anchor's visible text with surrounding whitespace
stripped, and the link is that anchor's resolved absolute URL. -/
theorem c8_extraction_fields (i : Nat) (r : ResultRow) (d : Deal)
    (h : extractRow i r = some d) :
    ∃ ie a rest, r.dealImg = some { img := some ie } ∧
      r.dealWrapper = some { anchors := a :: rest } ∧
      d.title = pyStrip a.text ∧ d.link = a.href ∧
      ((∃ s, ie.dataOriginal = some s ∧ s ≠ "" ∧ d.imageUrl = some s) ∨
       ((ie.dataOriginal = none ∨ ie.dataOriginal = some "") ∧
        d.imageUrl = ie.src)) := by
  rcases extractRow_eq_some_iff.mp h with ⟨ie, a, rest, h1, h2, h3⟩
  subst h3
  refine ⟨ie, a, rest, h1, h2, rfl, rfl, ?_⟩
  by_cases hp : pyTruthy ie.dataOriginal = true
  · left
    rcases (pyTruthy_eq_true_iff ie.dataOriginal).mp hp with ⟨s, hso, hne⟩
    refine ⟨s, hso, hne, ?_⟩
    show (if pyTruthy ie.dataOriginal = true then ie.dataOriginal else ie.src) =
      some s
    rw [if_pos hp, hso]
  · right
    have hf : pyTruthy ie.dataOriginal = false := by simpa using hp
    refine ⟨(pyTruthy_eq_false_iff ie.dataOriginal).mp hf, ?_⟩
    show (if pyTruthy ie.dataOriginal = true then ie.dataOriginal else ie.src) =
      ie.src
    rw [if_neg hp]

/-- Witness for C8 (amended) on a well-formed row with a non-empty
lazy-load attribute. -/
theorem c8_extraction_fields_witness :
    ∃ ie a rest, c1rowGood1.dealImg = some { img := some ie } ∧
      c1rowGood1.dealWrapper = some { anchors := a :: rest } ∧
      c1dealOne.title = pyStrip a.text ∧ c1dealOne.link = a.href ∧
      ((∃ s, ie.dataOriginal = some s ∧ s ≠ "" ∧ c1dealOne.imageUrl = some s) ∨
       ((ie.dataOriginal = none ∨ ie.dataOriginal = some "") ∧
        c1dealOne.imageUrl = ie.src)) :=
  c8_extraction_fields 0 c1rowGood1 c1dealOne (by decide)

end Plenzo
